import Mathlib

/-!
Verification of the loghelper logging library (loghelper.hpp).

Shallow embedding conventions:
* C strings (char arrays / char pointers) are `List Char`.
* The C `Level` enum (`int32_t` backed) is `Int`; a `static_cast<Level>` from
  `atoi` can produce any integer, so no range restriction is imposed.
* `LogConfig` is a Lean structure whose field defaults mirror the C++
  in-class member initializers.
* File I/O is made explicit: a file is `Option (List (List Char))`, `none`
  when `fopen` fails, otherwise the list of lines `fgets` would deliver.
* The fallback backend's stderr output is modelled as `Option (List Char)`:
  `none` when the record is filtered out, `some line` with the formatted
  line otherwise (the wall-clock timestamp is a parameter).
* `snprintf` into a fixed buffer of capacity `n` stores at most `n - 1`
  characters; `vsnprintf` into the 2048-byte message buffer likewise.
-/

namespace Loghelper

/-- Shorthand: the character list of a string literal. -/
def str (s : String) : List Char := s.toList

-- ==========================================================================
-- Severity levels (enum Level : int32_t)
-- ==========================================================================

def kTrace : Int := 0
def kDebug : Int := 1
def kInfo : Int := 2
def kWarn : Int := 3
def kError : Int := 4
def kFatal : Int := 5
def kOff : Int := 6

/-- The `kNames` table of `LevelToString`. -/
def kNames : List String :=
  ["TRACE", "DEBUG", "INFO", "WARN", "ERROR", "FATAL", "OFF"]

/-- `loghelper::LevelToString`: index into `kNames` when `0 <= lv <= 6`,
otherwise return `"?"`. -/
def LevelToString (lv : Int) : String :=
  if 0 ≤ lv ∧ lv ≤ 6 then kNames.getD lv.toNat "?" else "?"

-- ==========================================================================
-- LogConfig (defaults are the C++ in-class member initializers)
-- ==========================================================================

structure LogConfig where
  console_level : Int := kInfo
  file_level : Int := kDebug
  syslog_level : Int := kInfo
  file_max_size_mb : Int := 100
  file_max_files : Int := 5
  file_min_free_mb : Int := 2000
  file_path : List Char := str "logs/app"
  syslog_addr : List Char := []
  syslog_port : Int := 514
  syslog_ident : List Char := str "loghelper"
  enable_console : Bool := true
  enable_file : Bool := true
  enable_syslog : Bool := false
  deriving Repr, DecidableEq

-- ==========================================================================
-- detail::TrimInPlace
-- ==========================================================================

/-- Characters removed from the front by `TrimInPlace` (space and tab). -/
def isLeadWS (c : Char) : Bool := c = ' ' || c = '\t'

/-- Characters removed from the back by `TrimInPlace`
(space, tab, carriage return, newline). -/
def isTrailWS (c : Char) : Bool := c = ' ' || c = '\t' || c = '\r' || c = '\n'

/-- Remove trailing `isTrailWS` characters (the second loop of
`TrimInPlace`). -/
def dropTrailWS (s : List Char) : List Char :=
  (s.reverse.dropWhile isTrailWS).reverse

/-- `loghelper::detail::TrimInPlace`: first drop leading spaces/tabs, then
drop trailing spaces/tabs/CR/LF. -/
def TrimInPlace (s : List Char) : List Char :=
  dropTrailWS (s.dropWhile isLeadWS)

-- ==========================================================================
-- std::atoi
-- ==========================================================================

/-- Whitespace skipped by `atoi` (C `isspace` in the default locale). -/
def isSpaceC (c : Char) : Bool :=
  c = ' ' || c = '\t' || c = '\n' || c = '\x0b' || c = '\x0c' || c = '\r'

/-- Value of the longest leading run of decimal digits (0 if none). -/
def digitsVal (s : List Char) : Int :=
  (s.takeWhile Char.isDigit).foldl (fun a c => a * 10 + ((c.toNat : Int) - 48)) 0

/-- `std::atoi`: skip whitespace, optional sign, then leading digits;
returns 0 when no digits are found.  (Overflow is undefined behaviour in C
and is not modelled.) -/
def atoi (s : List Char) : Int :=
  match s.dropWhile isSpaceC with
  | '-' :: r => - digitsVal r
  | '+' :: r => digitsVal r
  | r => digitsVal r

-- ==========================================================================
-- detail::ParseIniFile
-- ==========================================================================

/-- `snprintf` into a buffer of capacity `cap` keeps at most `cap - 1`
characters. -/
def sncopy (cap : Nat) (val : List Char) : List Char := val.take (cap - 1)

/-- `std::strchr(line, '=')` followed by splitting at that position:
`none` when the line has no `'='`, otherwise the key part (before the
first `'='`) and the value part (after it). -/
def splitAtEq : List Char → Option (List Char × List Char)
  | [] => none
  | c :: cs =>
    if c = '=' then some ([], cs)
    else
      match splitAtEq cs with
      | none => none
      | some kv => some (c :: kv.1, kv.2)

/-- The key/value dispatch chain of `ParseIniFile` (the `strcmp` ladder).
Buffer capacities: `file_path` 256, `syslog_addr` 64, `syslog_ident` 64. -/
def applyKeyValue (key val : List Char) (cfg : LogConfig) : LogConfig :=
  if key = str "ConsoleLevel" ∨ key = str "ConsoleLogLevel" then
    { cfg with console_level := atoi val }
  else if key = str "FileLevel" ∨ key = str "FileLogLevel" then
    { cfg with file_level := atoi val }
  else if key = str "SyslogLevel" ∨ key = str "SysLogLevel" then
    { cfg with syslog_level := atoi val }
  else if key = str "FileMaxSizeMB" ∨ key = str "FilelogMaxSize" then
    { cfg with file_max_size_mb := atoi val }
  else if key = str "FileMaxFiles" then
    { cfg with file_max_files := atoi val }
  else if key = str "FileMinFreeSpaceMB" ∨ key = str "FilelogMinFreeSpace" then
    { cfg with file_min_free_mb := atoi val }
  else if key = str "FilePath" then
    { cfg with file_path := sncopy 256 val }
  else if key = str "SyslogAddr" ∨ key = str "SysLogAddr" then
    { cfg with syslog_addr := sncopy 64 val, enable_syslog := !val.isEmpty }
  else if key = str "SyslogPort" ∨ key = str "SysLogPort" then
    { cfg with syslog_port := atoi val }
  else if key = str "SyslogIdent" then
    { cfg with syslog_ident := sncopy 64 val }
  else if key = str "EnableConsole" then
    { cfg with enable_console := atoi val ≠ 0 }
  else if key = str "EnableFile" then
    { cfg with enable_file := atoi val ≠ 0 }
  else if key = str "EnableSyslog" then
    { cfg with enable_syslog := atoi val ≠ 0 }
  else cfg

/-- One iteration of the `fgets` loop of `ParseIniFile`: trim the line,
skip blank/comment/section lines, split at the first `'='` (skip when
absent), trim key and value, and dispatch. -/
def processLine (cfg : LogConfig) (raw : List Char) : LogConfig :=
  let line := TrimInPlace raw
  match line with
  | [] => cfg
  | c :: _ =>
    if c = '#' ∨ c = ';' ∨ c = '[' then cfg
    else
      match splitAtEq line with
      | none => cfg
      | some kv => applyKeyValue (TrimInPlace kv.1) (TrimInPlace kv.2) cfg

/-- `loghelper::detail::ParseIniFile`: when `fopen` fails (`none`) return
`false` with the caller's record untouched; otherwise fold `processLine`
over the lines and return `true`. -/
def ParseIniFile (file : Option (List (List Char))) (cfg : LogConfig) :
    Bool × LogConfig :=
  match file with
  | none => (false, cfg)
  | some lines => (true, lines.foldl processLine cfg)

-- ==========================================================================
-- fallback::Backend
-- ==========================================================================

/-- State of `loghelper::fallback::Backend`: the stored configuration
`cfg_` and the atomic `inited_` flag.  The private constructor leaves
`cfg_` default-constructed and `inited_` false. -/
structure FallbackState where
  cfg : LogConfig := {}
  inited : Bool := false
  deriving Repr, DecidableEq

/-- `fallback::Backend::Init`: store the configuration and set
`inited_`. -/
def fallback_Init (cfg : LogConfig) (_st : FallbackState) : FallbackState :=
  { cfg := cfg, inited := true }

/-- `fallback::Backend::Shutdown`: clear `inited_` only; `cfg_` is kept. -/
def fallback_Shutdown (st : FallbackState) : FallbackState :=
  { st with inited := false }

/-- `(toString n)` for the `%d` conversion of `line`. -/
def intStr (n : Int) : List Char := (toString n).toList

/-- `%-5s`: left-justify in a field of width 5. -/
def padTo5 (s : List Char) : List Char :=
  s ++ List.replicate (5 - s.length) ' '

/-- Body of the formatted stderr line of `fallback::Backend::Log`,
after the timestamp/level prefix. -/
def fallbackLineTail (file : List Char) (line : Int) (func msg : List Char) :
    List Char :=
  file ++ str ":" ++ intStr line ++ str ":" ++ func ++ str "] " ++ msg ++ str "\n"

/-- `fallback::Backend::Log`: drop the record when `lv < cfg_.console_level`
(and only then — neither `enable_console` nor `inited_` is consulted);
otherwise format `"[ts] [LEVEL] ([tag]) [file:line:func] msg\n"` to stderr.
The formatted message is truncated to the 2048-byte stack buffer. -/
def fallback_Log (st : FallbackState) (ts : List Char) (lv : Int)
    (tag : Option (List Char)) (file : List Char) (line : Int)
    (func msg : List Char) : Option (List Char) :=
  if lv < st.cfg.console_level then none
  else
    let m := msg.take 2047
    let lvs := padTo5 (LevelToString lv).toList
    match tag with
    | some t =>
      if t = [] then
        some (str "[" ++ ts ++ str "] [" ++ lvs ++ str "] [" ++
          fallbackLineTail file line func m)
      else
        some (str "[" ++ ts ++ str "] [" ++ lvs ++ str "] [" ++ t ++
          str "] [" ++ fallbackLineTail file line func m)
    | none =>
      some (str "[" ++ ts ++ str "] [" ++ lvs ++ str "] [" ++
        fallbackLineTail file line func m)

-- ==========================================================================
-- Primary backend state and LogEngine
-- (default build: LOGHELPER_BACKEND_SPDLOG, so the active primary backend
-- is spdlog_backend::Backend, a singleton distinct from fallback::Backend)
-- ==========================================================================

/-- State of `loghelper::spdlog_backend::Backend` visible to this model:
the stored configuration `cfg_` and the `inited_` flag (the external
spdlog sink objects are I/O resources outside the model). -/
structure SpdlogState where
  cfg : LogConfig := {}
  inited : Bool := false
  deriving Repr, DecidableEq

/-- `spdlog_backend::Backend::Init`: store the configuration, build the
sinks, set `inited_`. -/
def spdlog_Init (cfg : LogConfig) (_st : SpdlogState) : SpdlogState :=
  { cfg := cfg, inited := true }

/-- `spdlog_backend::Backend::Shutdown`: when initialized, shut the
delegate down and clear `inited_`; `cfg_` is kept either way. -/
def spdlog_Shutdown (st : SpdlogState) : SpdlogState :=
  if st.inited then { st with inited := false } else st

/-- Combined process-wide backend state seen by `LogEngine`: the selected
primary backend singleton plus the always-present fallback singleton. -/
structure EngineState where
  primary : SpdlogState := {}
  fallback : FallbackState := {}
  deriving Repr, DecidableEq

/-- `LogEngine::Init(const LogConfig&)`: initialize the primary backend
and the fallback safety net with the same configuration. -/
def LogEngine_Init (cfg : LogConfig) (st : EngineState) : EngineState :=
  { primary := spdlog_Init cfg st.primary,
    fallback := fallback_Init cfg st.fallback }

/-- `LogEngine::Shutdown`: shut down the primary backend only. -/
def LogEngine_Shutdown (st : EngineState) : EngineState :=
  { st with primary := spdlog_Shutdown st.primary }

/-- `LogEngine::Init(const char*)`: default-construct a `LogConfig`, try
`ParseIniFile` (printing a diagnostic when it fails), initialize from the
resulting record, and return `true` unconditionally. -/
def LogEngine_InitFile (file : Option (List (List Char))) (st : EngineState) :
    Bool × EngineState :=
  let r := ParseIniFile file {}
  (true, LogEngine_Init r.2 st)

-- ==========================================================================
-- Configuration files for the alias-equivalence property
-- ==========================================================================

/-- A configuration file that sets the seven alias-bearing keys through
their primary names. -/
def primaryLines (v1 v2 v3 v4 v5 v6 v7 : List Char) : List (List Char) :=
  [str "ConsoleLevel" ++ '=' :: v1,
   str "FileLevel" ++ '=' :: v2,
   str "SyslogLevel" ++ '=' :: v3,
   str "FileMaxSizeMB" ++ '=' :: v4,
   str "FileMinFreeSpaceMB" ++ '=' :: v5,
   str "SyslogAddr" ++ '=' :: v6,
   str "SyslogPort" ++ '=' :: v7]

/-- The equivalent configuration file written through the legacy key
aliases, with the same values. -/
def legacyLines (v1 v2 v3 v4 v5 v6 v7 : List Char) : List (List Char) :=
  [str "ConsoleLogLevel" ++ '=' :: v1,
   str "FileLogLevel" ++ '=' :: v2,
   str "SysLogLevel" ++ '=' :: v3,
   str "FilelogMaxSize" ++ '=' :: v4,
   str "FilelogMinFreeSpace" ++ '=' :: v5,
   str "SysLogAddr" ++ '=' :: v6,
   str "SysLogPort" ++ '=' :: v7]

-- ==========================================================================
-- Helper lemmas about trimming, splitting and line processing
-- ==========================================================================

theorem dropWhile_head_false (p : Char → Bool) (l : List Char) (c : Char)
    (h : (l.dropWhile p).head? = some c) : p c = false := by
  induction l with
  | nil => simp [List.dropWhile] at h
  | cons a t ih =>
    rw [List.dropWhile_cons] at h
    split at h
    · exact ih h
    · rename_i hp
      simp only [List.head?_cons, Option.some.injEq] at h
      subst h
      simpa using hp

theorem head?_append_some (a b : List Char) (c : Char)
    (h : a.head? = some c) : (a ++ b).head? = some c := by
  cases a with
  | nil => simp at h
  | cons x t => simpa using h

/-- Every list is its trailing-trimmed part followed by the trimmed-off
trailing whitespace run. -/
theorem dropTrailWS_decomp (y : List Char) :
    y = dropTrailWS y ++ (y.reverse.takeWhile isTrailWS).reverse := by
  conv_lhs => rw [← List.reverse_reverse y,
    ← List.takeWhile_append_dropWhile isTrailWS y.reverse]
  rw [List.reverse_append]
  rfl

/-- Trailing trim stops at a `'='` separator: it only eats into the part
after the last `'='`. -/
theorem dropTrailWS_append_eq (a v : List Char) :
    dropTrailWS (a ++ '=' :: v) = a ++ '=' :: dropTrailWS v := by
  unfold dropTrailWS
  rw [List.reverse_append, List.reverse_cons, List.append_assoc,
    List.singleton_append, List.dropWhile_append]
  split
  · rename_i he
    rw [List.isEmpty_iff] at he
    rw [he, List.dropWhile_cons]
    simp [show isTrailWS '=' = false from rfl]
  · rw [List.reverse_append, List.reverse_cons, List.reverse_reverse]
    simp [List.append_assoc]

theorem splitAtEq_append (k v : List Char) (hk : '=' ∉ k) :
    splitAtEq (k ++ '=' :: v) = some (k, v) := by
  induction k with
  | nil => simp [splitAtEq]
  | cons c t ih =>
    have hc : c ≠ '=' := fun h => hk (h ▸ List.mem_cons_self c t)
    have ht : '=' ∉ t := fun h => hk (List.mem_cons_of_mem _ h)
    rw [List.cons_append]
    unfold splitAtEq
    rw [if_neg hc, ih ht]

/-- Trimming a `key=value` line whose key starts with a non-whitespace
character strips only the trailing whitespace of the value part. -/
theorem trim_key_line (c : Char) (k2 v : List Char) (hc : isLeadWS c = false) :
    TrimInPlace ((c :: k2) ++ '=' :: v) = (c :: k2) ++ '=' :: dropTrailWS v := by
  unfold TrimInPlace
  rw [List.cons_append, List.dropWhile_cons]
  simp only [hc, Bool.false_eq_true, if_false]
  rw [← List.cons_append, dropTrailWS_append_eq]

theorem processLine_eq_of_trim (cfg : LogConfig) (raw : List Char)
    (c : Char) (rest : List Char) (h : TrimInPlace raw = c :: rest) :
    processLine cfg raw =
      if c = '#' ∨ c = ';' ∨ c = '[' then cfg
      else
        match splitAtEq (c :: rest) with
        | none => cfg
        | some kv => applyKeyValue (TrimInPlace kv.1) (TrimInPlace kv.2) cfg := by
  unfold processLine
  rw [h]

/-- Processing a well-formed `key=value` line dispatches the trimmed key
and trimmed value. -/
theorem processLine_keyline (c : Char) (k2 v : List Char) (cfg : LogConfig)
    (hc : isLeadWS c = false) (hcom : ¬(c = '#' ∨ c = ';' ∨ c = '['))
    (hk : '=' ∉ c :: k2) :
    processLine cfg ((c :: k2) ++ '=' :: v) =
      applyKeyValue (TrimInPlace (c :: k2)) (TrimInPlace (dropTrailWS v)) cfg := by
  have h1 : TrimInPlace ((c :: k2) ++ '=' :: v) = c :: (k2 ++ '=' :: dropTrailWS v) := by
    rw [trim_key_line c k2 v hc, List.cons_append]
  rw [processLine_eq_of_trim cfg _ c _ h1, if_neg hcom]
  have h2 : splitAtEq (c :: (k2 ++ '=' :: dropTrailWS v)) =
      some (c :: k2, dropTrailWS v) := by
    rw [← List.cons_append]
    exact splitAtEq_append _ _ hk
  rw [h2]

theorem alias_line_console (cfg : LogConfig) (v : List Char) :
    processLine cfg (str "ConsoleLogLevel" ++ '=' :: v) =
      processLine cfg (str "ConsoleLevel" ++ '=' :: v) := by
  calc processLine cfg (str "ConsoleLogLevel" ++ '=' :: v)
      = applyKeyValue (str "ConsoleLogLevel") (TrimInPlace (dropTrailWS v)) cfg :=
        processLine_keyline 'C' (str "onsoleLogLevel") v cfg (by decide) (by decide) (by decide)
    _ = applyKeyValue (str "ConsoleLevel") (TrimInPlace (dropTrailWS v)) cfg := by rfl
    _ = processLine cfg (str "ConsoleLevel" ++ '=' :: v) :=
        (processLine_keyline 'C' (str "onsoleLevel") v cfg (by decide) (by decide) (by decide)).symm

theorem alias_line_file (cfg : LogConfig) (v : List Char) :
    processLine cfg (str "FileLogLevel" ++ '=' :: v) =
      processLine cfg (str "FileLevel" ++ '=' :: v) := by
  calc processLine cfg (str "FileLogLevel" ++ '=' :: v)
      = applyKeyValue (str "FileLogLevel") (TrimInPlace (dropTrailWS v)) cfg :=
        processLine_keyline 'F' (str "ileLogLevel") v cfg (by decide) (by decide) (by decide)
    _ = applyKeyValue (str "FileLevel") (TrimInPlace (dropTrailWS v)) cfg := by rfl
    _ = processLine cfg (str "FileLevel" ++ '=' :: v) :=
        (processLine_keyline 'F' (str "ileLevel") v cfg (by decide) (by decide) (by decide)).symm

theorem alias_line_syslog (cfg : LogConfig) (v : List Char) :
    processLine cfg (str "SysLogLevel" ++ '=' :: v) =
      processLine cfg (str "SyslogLevel" ++ '=' :: v) := by
  calc processLine cfg (str "SysLogLevel" ++ '=' :: v)
      = applyKeyValue (str "SysLogLevel") (TrimInPlace (dropTrailWS v)) cfg :=
        processLine_keyline 'S' (str "ysLogLevel") v cfg (by decide) (by decide) (by decide)
    _ = applyKeyValue (str "SyslogLevel") (TrimInPlace (dropTrailWS v)) cfg := by rfl
    _ = processLine cfg (str "SyslogLevel" ++ '=' :: v) :=
        (processLine_keyline 'S' (str "yslogLevel") v cfg (by decide) (by decide) (by decide)).symm

theorem alias_line_maxsize (cfg : LogConfig) (v : List Char) :
    processLine cfg (str "FilelogMaxSize" ++ '=' :: v) =
      processLine cfg (str "FileMaxSizeMB" ++ '=' :: v) := by
  calc processLine cfg (str "FilelogMaxSize" ++ '=' :: v)
      = applyKeyValue (str "FilelogMaxSize") (TrimInPlace (dropTrailWS v)) cfg :=
        processLine_keyline 'F' (str "ilelogMaxSize") v cfg (by decide) (by decide) (by decide)
    _ = applyKeyValue (str "FileMaxSizeMB") (TrimInPlace (dropTrailWS v)) cfg := by rfl
    _ = processLine cfg (str "FileMaxSizeMB" ++ '=' :: v) :=
        (processLine_keyline 'F' (str "ileMaxSizeMB") v cfg (by decide) (by decide) (by decide)).symm

theorem alias_line_minfree (cfg : LogConfig) (v : List Char) :
    processLine cfg (str "FilelogMinFreeSpace" ++ '=' :: v) =
      processLine cfg (str "FileMinFreeSpaceMB" ++ '=' :: v) := by
  calc processLine cfg (str "FilelogMinFreeSpace" ++ '=' :: v)
      = applyKeyValue (str "FilelogMinFreeSpace") (TrimInPlace (dropTrailWS v)) cfg :=
        processLine_keyline 'F' (str "ilelogMinFreeSpace") v cfg (by decide) (by decide) (by decide)
    _ = applyKeyValue (str "FileMinFreeSpaceMB") (TrimInPlace (dropTrailWS v)) cfg := by rfl
    _ = processLine cfg (str "FileMinFreeSpaceMB" ++ '=' :: v) :=
        (processLine_keyline 'F' (str "ileMinFreeSpaceMB") v cfg (by decide) (by decide) (by decide)).symm

theorem alias_line_addr (cfg : LogConfig) (v : List Char) :
    processLine cfg (str "SysLogAddr" ++ '=' :: v) =
      processLine cfg (str "SyslogAddr" ++ '=' :: v) := by
  calc processLine cfg (str "SysLogAddr" ++ '=' :: v)
      = applyKeyValue (str "SysLogAddr") (TrimInPlace (dropTrailWS v)) cfg :=
        processLine_keyline 'S' (str "ysLogAddr") v cfg (by decide) (by decide) (by decide)
    _ = applyKeyValue (str "SyslogAddr") (TrimInPlace (dropTrailWS v)) cfg := by rfl
    _ = processLine cfg (str "SyslogAddr" ++ '=' :: v) :=
        (processLine_keyline 'S' (str "yslogAddr") v cfg (by decide) (by decide) (by decide)).symm

theorem alias_line_port (cfg : LogConfig) (v : List Char) :
    processLine cfg (str "SysLogPort" ++ '=' :: v) =
      processLine cfg (str "SyslogPort" ++ '=' :: v) := by
  calc processLine cfg (str "SysLogPort" ++ '=' :: v)
      = applyKeyValue (str "SysLogPort") (TrimInPlace (dropTrailWS v)) cfg :=
        processLine_keyline 'S' (str "ysLogPort") v cfg (by decide) (by decide) (by decide)
    _ = applyKeyValue (str "SyslogPort") (TrimInPlace (dropTrailWS v)) cfg := by rfl
    _ = processLine cfg (str "SyslogPort" ++ '=' :: v) :=
        (processLine_keyline 'S' (str "yslogPort") v cfg (by decide) (by decide) (by decide)).symm

/-- The fallback backend emits exactly when the record's severity reaches
the stored console threshold. -/
theorem fallback_Log_isSome_iff (st : FallbackState) (ts : List Char)
    (lv : Int) (tag : Option (List Char)) (file : List Char) (ln : Int)
    (fn msg : List Char) :
    (fallback_Log st ts lv tag file ln fn msg).isSome = true ↔
      st.cfg.console_level ≤ lv := by
  unfold fallback_Log
  by_cases h : lv < st.cfg.console_level
  · rw [if_pos h]
    simp
    omega
  · rw [if_neg h]
    rcases tag with _ | t
    · simp
      omega
    · by_cases ht : t = [] <;> simp [ht] <;> omega

-- ==========================================================================
-- Claim theorems
-- ==========================================================================

/-- C1: for every record severity S in Trace..Fatal and every destination
threshold T in Trace..Off, the fallback backend's `Log` emits the record
iff S ≥ T, and emits nothing when T equals Off. -/
theorem fallback_log_threshold_filter (S T : Int) (c : LogConfig) (b : Bool)
    (ts : List Char) (tag : Option (List Char)) (file : List Char) (ln : Int)
    (fn msg : List Char) (hS : kTrace ≤ S ∧ S ≤ kFatal)
    (hT : kTrace ≤ T ∧ T ≤ kOff) :
    ((fallback_Log { cfg := { c with console_level := T }, inited := b }
        ts S tag file ln fn msg).isSome = true ↔ T ≤ S) ∧
    (T = kOff →
      fallback_Log { cfg := { c with console_level := T }, inited := b }
        ts S tag file ln fn msg = none) := by
  constructor
  · exact fallback_Log_isSome_iff _ _ _ _ _ _ _ _
  · intro h6
    unfold fallback_Log
    rw [if_pos]
    show S < ({ c with console_level := T } : LogConfig).console_level
    simp only [h6]
    unfold kTrace kFatal at hS
    unfold kOff
    omega

/-- Witness for C1 at S = Fatal, T = Off: nothing is emitted. -/
theorem fallback_log_threshold_filter_witness :
    fallback_Log { cfg := { console_level := 6 }, inited := true }
      (str "ts") 5 none (str "f.c") 3 (str "fn") (str "msg") = none :=
  (fallback_log_threshold_filter 5 6 {} true (str "ts") none (str "f.c") 3
    (str "fn") (str "msg") (by decide) (by decide)).2 (by decide)

/-- C2: `LogEngine::Init(cfg)` initializes the primary and the fallback
backend with the same configuration; `LogEngine::Shutdown` marks only the
primary backend uninitialized and leaves the fallback singleton's state
(initialization flag and stored configuration) unchanged. -/
theorem engine_init_both_shutdown_primary_only (cfg : LogConfig)
    (st : EngineState) :
    (LogEngine_Init cfg st).primary.cfg = cfg ∧
    (LogEngine_Init cfg st).primary.inited = true ∧
    (LogEngine_Init cfg st).fallback.cfg = cfg ∧
    (LogEngine_Init cfg st).fallback.inited = true ∧
    (LogEngine_Shutdown st).fallback = st.fallback ∧
    (LogEngine_Shutdown st).primary.inited = false ∧
    (LogEngine_Shutdown st).primary.cfg = st.primary.cfg := by
  refine ⟨rfl, rfl, rfl, rfl, rfl, ?_, ?_⟩
  · show (spdlog_Shutdown st.primary).inited = false
    unfold spdlog_Shutdown
    split
    · rfl
    · rename_i h
      simpa using h
  · show (spdlog_Shutdown st.primary).cfg = st.primary.cfg
    unfold spdlog_Shutdown
    split <;> rfl

/-- C3: when the file cannot be opened, `ParseIniFile` returns `false` and
leaves every field of the caller's `LogConfig` record exactly as it was. -/
theorem parse_missing_file_leaves_config (cfg : LogConfig) :
    (ParseIniFile none cfg).1 = false ∧
    (ParseIniFile none cfg).2.console_level = cfg.console_level ∧
    (ParseIniFile none cfg).2.file_level = cfg.file_level ∧
    (ParseIniFile none cfg).2.syslog_level = cfg.syslog_level ∧
    (ParseIniFile none cfg).2.file_max_size_mb = cfg.file_max_size_mb ∧
    (ParseIniFile none cfg).2.file_max_files = cfg.file_max_files ∧
    (ParseIniFile none cfg).2.file_min_free_mb = cfg.file_min_free_mb ∧
    (ParseIniFile none cfg).2.file_path = cfg.file_path ∧
    (ParseIniFile none cfg).2.syslog_addr = cfg.syslog_addr ∧
    (ParseIniFile none cfg).2.syslog_port = cfg.syslog_port ∧
    (ParseIniFile none cfg).2.syslog_ident = cfg.syslog_ident ∧
    (ParseIniFile none cfg).2.enable_console = cfg.enable_console ∧
    (ParseIniFile none cfg).2.enable_file = cfg.enable_file ∧
    (ParseIniFile none cfg).2.enable_syslog = cfg.enable_syslog ∧
    (ParseIniFile none cfg).2 = cfg :=
  ⟨rfl, rfl, rfl, rfl, rfl, rfl, rfl, rfl, rfl, rfl, rfl, rfl, rfl, rfl, rfl⟩

/-- C4: `LogEngine::Init(path)` returns `true` for every file, including a
missing one; on a missing file the engine is still initialized, with the
default-constructed configuration. -/
theorem engine_initfile_always_succeeds (file : Option (List (List Char)))
    (st : EngineState) :
    (LogEngine_InitFile file st).1 = true ∧
    (LogEngine_InitFile none st).2.primary.inited = true ∧
    (LogEngine_InitFile none st).2.primary.cfg = ({} : LogConfig) ∧
    (LogEngine_InitFile none st).2.fallback.inited = true ∧
    (LogEngine_InitFile none st).2.fallback.cfg = ({} : LogConfig) :=
  ⟨rfl, rfl, rfl, rfl, rfl⟩

/-- C5: a configuration file using only the legacy key aliases parses to a
record identical to the equivalent file using only the primary key names
with the same values. -/
theorem parse_alias_equivalence (v1 v2 v3 v4 v5 v6 v7 : List Char)
    (cfg : LogConfig) :
    ParseIniFile (some (legacyLines v1 v2 v3 v4 v5 v6 v7)) cfg =
      ParseIniFile (some (primaryLines v1 v2 v3 v4 v5 v6 v7)) cfg := by
  unfold ParseIniFile legacyLines primaryLines
  simp only [List.foldl_cons, List.foldl_nil]
  rw [alias_line_console, alias_line_file, alias_line_syslog,
    alias_line_maxsize, alias_line_minfree, alias_line_addr, alias_line_port]

/-- C6: a `SyslogAddr` (or `SysLogAddr`) line with a non-empty value sets
the syslog address field to that value (truncated to the 64-byte buffer)
and auto-enables the syslog destination, whatever the prior configuration
(in particular with no `EnableSyslog` key involved). -/
theorem syslog_addr_autoenables (v : List Char) (cfg : LogConfig)
    (hne : v ≠ []) (hclean : TrimInPlace (dropTrailWS v) = v) :
    (processLine cfg (str "SyslogAddr" ++ '=' :: v)).syslog_addr = v.take 63 ∧
    (processLine cfg (str "SyslogAddr" ++ '=' :: v)).enable_syslog = true ∧
    (processLine cfg (str "SysLogAddr" ++ '=' :: v)).syslog_addr = v.take 63 ∧
    (processLine cfg (str "SysLogAddr" ++ '=' :: v)).enable_syslog = true ∧
    (v.length ≤ 63 →
      (processLine cfg (str "SyslogAddr" ++ '=' :: v)).syslog_addr = v) := by
  have h1 : processLine cfg (str "SyslogAddr" ++ '=' :: v) =
      applyKeyValue (str "SyslogAddr") v cfg := by
    calc processLine cfg (str "SyslogAddr" ++ '=' :: v)
        = applyKeyValue (str "SyslogAddr") (TrimInPlace (dropTrailWS v)) cfg :=
          processLine_keyline 'S' (str "yslogAddr") v cfg (by decide) (by decide)
            (by decide)
      _ = applyKeyValue (str "SyslogAddr") v cfg := by rw [hclean]
  have h2 : processLine cfg (str "SysLogAddr" ++ '=' :: v) =
      applyKeyValue (str "SyslogAddr") v cfg := by
    calc processLine cfg (str "SysLogAddr" ++ '=' :: v)
        = applyKeyValue (str "SysLogAddr") (TrimInPlace (dropTrailWS v)) cfg :=
          processLine_keyline 'S' (str "ysLogAddr") v cfg (by decide) (by decide)
            (by decide)
      _ = applyKeyValue (str "SysLogAddr") v cfg := by rw [hclean]
      _ = applyKeyValue (str "SyslogAddr") v cfg := by rfl
  have h3 : applyKeyValue (str "SyslogAddr") v cfg =
      { cfg with syslog_addr := sncopy 64 v, enable_syslog := !v.isEmpty } := rfl
  have hemp : v.isEmpty = false := by
    cases v with
    | nil => exact absurd rfl hne
    | cons a t => rfl
  refine ⟨?_, ?_, ?_, ?_, ?_⟩
  · rw [h1, h3]
    rfl
  · rw [h1, h3]
    show (!v.isEmpty) = true
    rw [hemp]
    rfl
  · rw [h2, h3]
    rfl
  · rw [h2, h3]
    show (!v.isEmpty) = true
    rw [hemp]
    rfl
  · intro hlen
    rw [h1, h3]
    show v.take 63 = v
    exact List.take_of_length_le hlen

/-- Witness for C6: a concrete non-empty address auto-enables syslog and
is stored verbatim. -/
theorem syslog_addr_autoenables_witness :
    (processLine {} (str "SyslogAddr" ++ '=' :: str "10.0.0.1")).enable_syslog
      = true :=
  (syslog_addr_autoenables (str "10.0.0.1") {} (by decide) (by decide)).2.1

/-- C7 counterexample: the value "00" differs from "0" but still parses as
`false`, because the code parses booleans with `atoi(val) != 0`, not by
string comparison against "0". -/
theorem bool_key_counterexample :
    (ParseIniFile (some [str "EnableConsole=00"]) {}).2.enable_console = false ∧
    str "00" ≠ str "0" := by decide

/-- C7 amended: for each boolean key the parsed flag is `atoi(v) != 0`:
`false` exactly when the value's numeric prefix parses to zero (so "0",
"00", and non-numeric strings give `false`), `true` otherwise. -/
theorem bool_keys_parse_numerically (v : List Char) (cfg : LogConfig) :
    (applyKeyValue (str "EnableConsole") v cfg).enable_console
      = decide (atoi v ≠ 0) ∧
    (applyKeyValue (str "EnableFile") v cfg).enable_file
      = decide (atoi v ≠ 0) ∧
    (applyKeyValue (str "EnableSyslog") v cfg).enable_syslog
      = decide (atoi v ≠ 0) ∧
    atoi (str "0") = 0 ∧ atoi (str "1") = 1 :=
  ⟨rfl, rfl, rfl, rfl, rfl⟩

/-- C8: `TrimInPlace` removes all leading spaces/tabs and all trailing
spaces/tabs/CR/LF, leaves the interior untouched (the result is a
contiguous slice of the input between removed runs), is the identity on
strings with no such leading/trailing characters, and maps the empty
string to the empty string. -/
theorem trimInPlace_spec (s : List Char) :
    (∃ l r, s = l ++ TrimInPlace s ++ r ∧ (∀ c ∈ l, isLeadWS c = true) ∧
      (∀ c ∈ r, isTrailWS c = true)) ∧
    (∀ c, (TrimInPlace s).head? = some c → isLeadWS c = false) ∧
    (∀ c, (TrimInPlace s).getLast? = some c → isTrailWS c = false) ∧
    ((∀ c, s.head? = some c → isLeadWS c = false) →
      (∀ c, s.getLast? = some c → isTrailWS c = false) → TrimInPlace s = s) ∧
    TrimInPlace [] = [] := by
  refine ⟨?_, ?_, ?_, ?_, rfl⟩
  · refine ⟨s.takeWhile isLeadWS,
      ((s.dropWhile isLeadWS).reverse.takeWhile isTrailWS).reverse, ?_, ?_, ?_⟩
    · calc s = s.takeWhile isLeadWS ++ s.dropWhile isLeadWS :=
            (List.takeWhile_append_dropWhile _ _).symm
        _ = s.takeWhile isLeadWS ++ (dropTrailWS (s.dropWhile isLeadWS) ++
              ((s.dropWhile isLeadWS).reverse.takeWhile isTrailWS).reverse) := by
            rw [← dropTrailWS_decomp]
        _ = s.takeWhile isLeadWS ++ TrimInPlace s ++
              ((s.dropWhile isLeadWS).reverse.takeWhile isTrailWS).reverse := by
            rw [List.append_assoc]
            rfl
    · intro c hc
      exact List.mem_takeWhile_imp hc
    · intro c hc
      rw [List.mem_reverse] at hc
      exact List.mem_takeWhile_imp hc
  · intro c h
    have h2 : (s.dropWhile isLeadWS).head? = some c := by
      rw [dropTrailWS_decomp (s.dropWhile isLeadWS)]
      exact head?_append_some _ _ _ h
    exact dropWhile_head_false isLeadWS s c h2
  · intro c h
    have h2 : ((s.dropWhile isLeadWS).reverse.dropWhile isTrailWS).head? = some c := by
      rw [← List.getLast?_reverse]
      exact h
    exact dropWhile_head_false isTrailWS _ c h2
  · intro hh hl
    have e1 : s.dropWhile isLeadWS = s := by
      cases s with
      | nil => rfl
      | cons a t =>
        rw [List.dropWhile_cons]
        have ha := hh a rfl
        simp [ha]
    have e2 : s.reverse.dropWhile isTrailWS = s.reverse := by
      cases hr : s.reverse with
      | nil => rfl
      | cons a t =>
        rw [List.dropWhile_cons]
        have ha : s.getLast? = some a := by
          rw [← List.head?_reverse, hr]
          rfl
        have hb := hl a ha
        simp [hb]
    show dropTrailWS (s.dropWhile isLeadWS) = s
    rw [e1]
    unfold dropTrailWS
    rw [e2, List.reverse_reverse]

/-- Witness for C8: trimming an already-clean string is the identity. -/
theorem trimInPlace_spec_witness : TrimInPlace (str "a b") = str "a b" :=
  (trimInPlace_spec (str "a b")).2.2.2.1
    (fun c hc => (Option.some.inj hc) ▸ (by decide : isLeadWS 'a' = false))
    (fun c hc => (Option.some.inj hc) ▸ (by decide : isTrailWS 'b' = false))

/-- C9: `LevelToString` is total: each in-range level maps to its display
name and every out-of-range value maps to "?". -/
theorem levelToString_total (i : Int) :
    LevelToString kTrace = "TRACE" ∧ LevelToString kDebug = "DEBUG" ∧
    LevelToString kInfo = "INFO" ∧ LevelToString kWarn = "WARN" ∧
    LevelToString kError = "ERROR" ∧ LevelToString kFatal = "FATAL" ∧
    LevelToString kOff = "OFF" ∧
    ((i < 0 ∨ 6 < i) → LevelToString i = "?") := by
  refine ⟨rfl, rfl, rfl, rfl, rfl, rfl, rfl, ?_⟩
  intro h
  unfold LevelToString
  rw [if_neg (show ¬(0 ≤ i ∧ i ≤ 6) by omega)]

/-- Witness for C9: value 7 is out of range and maps to "?". -/
theorem levelToString_total_witness : LevelToString 7 = "?" :=
  (levelToString_total 7).2.2.2.2.2.2.2 (Or.inr (by decide))

/-- C10 counterexample: after `Init` with an Error threshold followed by
`Shutdown`, an Info record is NOT emitted, although the default
configuration's threshold (Info) would admit it — `Shutdown` clears only
the init flag and keeps the stored configuration. -/
theorem shutdown_keeps_stored_threshold_counterexample :
    fallback_Log (fallback_Shutdown (fallback_Init { console_level := kError } {}))
      (str "ts") kInfo none (str "f.c") 1 (str "fn") (str "m") = none ∧
    ({} : LogConfig).console_level ≤ kInfo :=
  ⟨rfl, by decide⟩

/-- C10 amended: the fallback `Log` consults neither `enable_console` nor
the init flag — it emits exactly when the severity reaches the *stored*
`console_level`: before any `Init` the default configuration's threshold
applies, while after `Shutdown` the last stored configuration (not the
default) still applies, since `Shutdown` only clears the init flag. -/
theorem fallback_log_ignores_enable_and_inited (c : LogConfig) (b b2 b3 : Bool)
    (ts : List Char) (lv : Int) (tag : Option (List Char)) (file : List Char)
    (ln : Int) (fn msg : List Char) :
    (fallback_Log { cfg := c, inited := b } ts lv tag file ln fn msg =
      fallback_Log { cfg := { c with enable_console := b2 }, inited := b3 }
        ts lv tag file ln fn msg) ∧
    (c.console_level ≤ lv →
      (fallback_Log { cfg := c, inited := b } ts lv tag file ln fn msg).isSome
        = true) ∧
    ((fallback_Log ({} : FallbackState) ts lv tag file ln fn msg).isSome = true ↔
      ({} : LogConfig).console_level ≤ lv) ∧
    (∀ c2 st, (fallback_Shutdown (fallback_Init c2 st)).cfg = c2 ∧
      (fallback_Shutdown st).cfg = st.cfg) := by
  refine ⟨rfl, ?_, ?_, fun c2 st => ⟨rfl, rfl⟩⟩
  · intro h
    rw [fallback_Log_isSome_iff]
    exact h
  · exact fallback_Log_isSome_iff _ _ _ _ _ _ _ _

/-- Witness for C10's amended theorem: with console disabled and the
backend never initialized, an Info record is still emitted. -/
theorem fallback_log_ignores_enable_and_inited_witness :
    (fallback_Log { cfg := { enable_console := false }, inited := false }
      (str "t") 2 none (str "f") 1 (str "g") (str "m")).isSome = true :=
  (fallback_log_ignores_enable_and_inited { enable_console := false }
    false false false (str "t") 2 none (str "f") 1 (str "g") (str "m")).2.1
    (by decide)

end Loghelper
